import Mathlib

/-!
Verification development for the themekit theme-client slice: the response
envelope resolver, error taxonomy, asset filtering, the update-asset conflict
retrier, the post-creation readiness poller (`src/cmd/new.go`), and the static
unbundler (`writeFile`/`Unbundle`).

The shopify client implementation itself is not among the provided sources
(only its test file is); those definitions are modelled from the spec, as
their doc comments state, and are kept consistent with the behaviors pinned
down by the test file.  `runPoll` and the `static` section are translated
directly from the provided sources.
-/

namespace Themekit

/-- Minimal JSON value model, sufficient for the response envelopes the client
decodes: objects, arrays, strings, integers, booleans and null. -/
inductive Json where
  | str (s : String)
  | num (n : Int)
  | jbool (b : Bool)
  | arr (xs : List Json)
  | obj (fields : List (String × Json))
  | null

/-- Look up a top-level field of a JSON object; `none` when the value is not
an object or the field is missing. -/
def Json.lookupField : Json → String → Option Json
  | .obj fields, k => fields.lookup k
  | _, _ => none

/-- Whether the value is a JSON object. -/
def Json.isObj : Json → Bool
  | .obj _ => true
  | _ => false

/-- Decode a string field of a JSON object body, Go-style: a missing or null
field yields the zero value `""`; a present field of the wrong shape is a
decode failure. -/
def decodeStrField (body : Json) (k : String) : Option String :=
  match body.lookupField k with
  | none => some ""
  | some (.str s) => some s
  | some .null => some ""
  | some _ => none

/-- Decode an integer field of a JSON object body, Go-style (missing/null
yields `0`). -/
def decodeNumField (body : Json) (k : String) : Option Int :=
  match body.lookupField k with
  | none => some 0
  | some (.num n) => some n
  | some .null => some 0
  | some _ => none

/-- Decode a boolean field of a JSON object body, Go-style (missing/null
yields `false`). -/
def decodeBoolField (body : Json) (k : String) : Option Bool :=
  match body.lookupField k with
  | none => some false
  | some (.jbool b) => some b
  | some .null => some false
  | some _ => none

/-- Modelled from the spec (data model): a Shop has a remote numeric
identifier and a domain name. -/
structure Shop where
  id : Int
  domain : String
deriving DecidableEq

/-- Modelled from the spec (data model): a Theme has a numeric identifier, a
name, a source archive URL, a role and a boolean `previewable` readiness
flag. -/
structure Theme where
  id : Int
  name : String
  source : String
  role : String
  previewable : Bool
deriving DecidableEq

/-- Modelled from the spec (data model): an Asset is identified by a
path-like key within a theme; the content payload is out of scope. -/
structure Asset where
  key : String
deriving DecidableEq

/-- The Go zero value of `Shop`. -/
def zeroShop : Shop := ⟨0, ""⟩

/-- The Go zero value of `Theme`. -/
def zeroTheme : Theme := ⟨0, "", "", "", false⟩

/-- The Go zero value of `Asset`. -/
def zeroAsset : Asset := ⟨""⟩

/-- Modelled from the spec: the missing shopify decoder unmarshals a shop
success body by reading its fields at the top level of the response body (the
test mocks `GetShop` with body fields `id` etc. at the top level). -/
def decodeShop (body : Json) : Option Shop := do
  let id ← decodeNumField body "id"
  let domain ← decodeStrField body "domain"
  pure ⟨id, domain⟩

/-- Decode one JSON value as a Theme object (Go-style: null decodes to the
zero value). -/
def decodeThemeObj : Json → Option Theme
  | .null => some zeroTheme
  | j =>
    if j.isObj then do
      let id ← decodeNumField j "id"
      let name ← decodeStrField j "name"
      let source ← decodeStrField j "source"
      let role ← decodeStrField j "role"
      let previewable ← decodeBoolField j "previewable"
      pure ⟨id, name, source, role, previewable⟩
    else none

/-- Modelled from the spec: the missing shopify decoder reads a theme success
payload under the top-level `theme` key of the envelope; a missing key leaves
the Go zero value. -/
def decodeTheme (body : Json) : Option Theme :=
  match body.lookupField "theme" with
  | none => some zeroTheme
  | some j => decodeThemeObj j

/-- Decode one JSON value as an Asset object. -/
def decodeAssetObj : Json → Option Asset
  | .null => some zeroAsset
  | j =>
    if j.isObj then do
      let key ← decodeStrField j "key"
      pure ⟨key⟩
    else none

/-- Modelled from the spec: the missing shopify decoder reads an asset
success payload under the top-level `asset` key of the envelope. -/
def decodeAsset (body : Json) : Option Asset :=
  match body.lookupField "asset" with
  | none => some zeroAsset
  | some j => decodeAssetObj j

/-- Modelled from the spec: the missing shopify decoder reads the asset list
under the top-level `assets` key of the envelope. -/
def decodeAssetList (body : Json) : Option (List Asset) :=
  match body.lookupField "assets" with
  | none => some []
  | some .null => some []
  | some (.arr xs) => xs.mapM decodeAssetObj
  | some _ => none

/-- Modelled from the spec: the missing shopify decoder reads the theme list
under the top-level `themes` key of the envelope. -/
def decodeThemeList (body : Json) : Option (List Theme) :=
  match body.lookupField "themes" with
  | none => some []
  | some .null => some []
  | some (.arr xs) => xs.mapM decodeThemeObj
  | some _ => none

/-- Shape of the top-level `errors` field of a response envelope: absent, a
freeform string, a field-to-violations map, or malformed. -/
inductive ErrorsShape where
  | absent
  | freeform (msg : String)
  | fieldErrors (m : List (String × List String))
  | malformed

/-- Decode a JSON array of strings. -/
def decodeStringList : Json → Option (List String)
  | .arr xs => xs.mapM (fun j => match j with | .str s => some s | _ => none)
  | _ => none

/-- Modelled from the spec: classify the top-level `errors` field of the
envelope as absent, a freeform string, or a field-validation map. -/
def errorsField (body : Json) : ErrorsShape :=
  match body.lookupField "errors" with
  | none => .absent
  | some .null => .absent
  | some (.str s) => .freeform s
  | some (.obj fields) =>
    match fields.mapM (fun kv => (decodeStringList kv.2).map (fun vs => (kv.1, vs))) with
    | some m => .fieldErrors m
    | none => .malformed
  | some _ => .malformed

/-- Ordering of validation-map entries by field name. -/
def keyLE (a b : String × List String) : Prop := a.1 ≤ b.1

instance : DecidableRel keyLE := fun a b => inferInstanceAs (Decidable (a.1 ≤ b.1))

instance : IsTotal (String × List String) keyLE := ⟨fun a b => le_total a.1 b.1⟩

instance : IsTrans (String × List String) keyLE := ⟨fun _ _ _ h1 h2 => le_trans h1 h2⟩

/-- Modelled from the spec: the missing `toMessages` iterates the
validation-error map in a deterministic order (sorted by field name) and
emits one `"<field> <violation>"` message per violation. -/
def toMessages (m : List (String × List String)) : List String :=
  (List.insertionSort keyLE m).flatMap (fun p => p.2.map (fun v => p.1 ++ " " ++ v))

/-- Modelled from the spec: the missing `toSentence` joins violation
messages: empty list to empty string, one element to itself, two to
`"A and B"`, three or more comma-separated with a final `", and "`. -/
def toSentence : List String → String
  | [] => ""
  | [a] => a
  | [a, b] => a ++ " and " ++ b
  | a :: b :: c :: rest =>
    String.intercalate ", " ((a :: b :: c :: rest).dropLast)
      ++ ", and " ++ (a :: b :: c :: rest).getLastD ""

/-- Modelled from the spec: the shop-not-found domain error synthesized on a
404 with an empty success body (error text not in the sources). -/
def ErrShopDomainNotFound : String := "shop domain not found"

/-- Modelled from the spec: the theme-not-found domain error (error text not
in the sources). -/
def ErrThemeNotFound : String := "theme not found"

/-- Modelled from the spec: the asset-not-part-of-theme domain error (error
text not in the sources). -/
def ErrNotPartOfTheme : String := "asset is not part of theme"

/-- Precondition error for GetInfo without a bound theme id (text given by
the spec). -/
def ErrInfoWithoutThemeID : String := "info requires a theme id"

/-- Precondition error for CreateNewTheme without a source URL (text given by
the spec). -/
def ErrZipPathRequired : String := "theme zip path is required"

/-- Error used when a response body does not match any expected envelope
shape. -/
def ErrParseFailure : String := "could not parse response"

/-- Modelled from the spec (resolver algorithm, section 4.2): decode the
envelope (a decode failure is a fatal parse error); a freeform error string
is the final error regardless of status; a field-validation map becomes the
`toSentence`/`toMessages` sentence; an entirely zero-valued success payload
with status 404 becomes the calling context's not-found error (when the
context supplies one); otherwise the payload is returned. -/
def resolveResponse {α : Type} [DecidableEq α] (decodePayload : Json → Option α)
    (zero : α) (notFound : Option String) (status : Nat) (body : Json) :
    Except String α :=
  if body.isObj then
    match errorsField body with
    | .freeform s => .error s
    | .fieldErrors m => .error (toSentence (toMessages m))
    | .malformed => .error ErrParseFailure
    | .absent =>
      match decodePayload body with
      | none => .error ErrParseFailure
      | some p =>
        match notFound with
        | some nf => if p = zero ∧ status = 404 then .error nf else .ok p
        | none => .ok p
  else .error ErrParseFailure

/-- Substring test over the underlying character lists (executable model of
Go's `strings.Contains` on the error message). -/
def beginsWith : List Char → List Char → Bool
  | [], _ => true
  | _ :: _, [] => false
  | p :: ps, c :: cs => p == c && beginsWith ps cs

/-- Whether `pat` occurs as a contiguous run inside `l`. -/
def hasSub (pat : List Char) : List Char → Bool
  | [] => beginsWith pat []
  | c :: rest => beginsWith pat (c :: rest) || hasSub pat rest

/-- Whether `pat` occurs as a substring of `s`. -/
def strContains (s pat : String) : Bool := hasSub pat.toList s.toList

/-- Hexadecimal digit character for `n < 16`, uppercase. -/
def hexDigit (n : Nat) : Char :=
  if n < 10 then Char.ofNat (48 + n) else Char.ofNat (55 + n)

/-- Whether a character passes through percent-encoding unescaped. -/
def isUnreservedChar (c : Char) : Bool :=
  c.isAlphanum || c == '-' || c == '_' || c == '.' || c == '~'

/-- Modelled from the spec: the asset key is percent-encoded into the query
string (for example `[` becomes `%5B` and `/` becomes `%2F`). -/
def urlEncode (s : String) : String :=
  String.mk (s.toList.flatMap (fun c =>
    if isUnreservedChar c then [c]
    else ['%', hexDigit (c.toNat / 16 % 16), hexDigit (c.toNat % 16)]))

/-- Modelled from the spec: path construction for asset operations inserts
the themeID segment only when the themeID is non-empty, and percent-encodes
the asset key into the query parameter `asset[key]`. -/
def assetPath (themeID : String) (key : Option String) : String :=
  let base :=
    if themeID = "" then "/admin/assets.json"
    else "/admin/themes/" ++ themeID ++ "/assets.json"
  match key with
  | none => base
  | some k => base ++ "?asset%5Bkey%5D=" ++ urlEncode k

/-- Modelled from the spec: the client configuration bound at construction; a
bound themeID and the ignore-rule predicate (rule matching itself is the
external IgnoreRuleSet collaborator). -/
structure Client where
  themeID : String
  ignored : String → Bool

/-- An HTTP request issued through the transport adapter. -/
structure Request where
  method : String
  path : String
  payload : Option Json

/-- Responses of the transport adapter, indexed by the position of the call
within one client operation (mirrors the mocked adapter of the tests):
either a transport-level failure or a status code with a JSON body. -/
def Transport : Type := Nat → Except String (Nat × Json)

/-- Modelled from the spec: `GetShop` performs `GET /meta.json` and resolves
the response with the shop-not-found fallback. -/
def getShop (t : Transport) : List Request × Except String Shop :=
  let req : Request := ⟨"GET", "/meta.json", none⟩
  match t 0 with
  | .error e => ([req], .error e)
  | .ok (status, body) =>
    ([req], resolveResponse decodeShop zeroShop (some ErrShopDomainNotFound) status body)

/-- Modelled from the spec: `Themes` performs `GET /admin/themes.json` and
resolves the theme list with no implied-not-found fallback. -/
def themes (t : Transport) : List Request × Except String (List Theme) :=
  let req : Request := ⟨"GET", "/admin/themes.json", none⟩
  match t 0 with
  | .error e => ([req], .error e)
  | .ok (status, body) =>
    ([req], resolveResponse decodeThemeList [] none status body)

/-- Modelled from the spec: `CreateNewTheme` requires a non-empty source URL
before any network call, then performs `POST /admin/themes.json` with the
theme payload and resolves the created theme. -/
def createNewTheme (name source : String) (t : Transport) :
    List Request × Except String Theme :=
  if source = "" then ([], .error ErrZipPathRequired)
  else
    let req : Request :=
      ⟨"POST", "/admin/themes.json",
       some (Json.obj [("theme", Json.obj [("name", .str name), ("source", .str source)])])⟩
    match t 0 with
    | .error e => ([req], .error e)
    | .ok (status, body) =>
      ([req], resolveResponse decodeTheme zeroTheme none status body)

/-- Modelled from the spec: `GetInfo` requires a bound themeID before any
network call, then performs `GET /admin/themes/{id}.json` and resolves the
theme with the theme-not-found fallback. -/
def getInfo (c : Client) (t : Transport) : List Request × Except String Theme :=
  if c.themeID = "" then ([], .error ErrInfoWithoutThemeID)
  else
    let req : Request := ⟨"GET", "/admin/themes/" ++ c.themeID ++ ".json", none⟩
    match t 0 with
    | .error e => ([req], .error e)
    | .ok (status, body) =>
      ([req], resolveResponse decodeTheme zeroTheme (some ErrThemeNotFound) status body)

/-- Modelled from the spec (AssetFilter, section 4.3): drop keys matching an
ignore rule, then drop any key whose `.liquid`-suffixed counterpart is also
in the (ignore-filtered) list, keeping original order. -/
def filterAssets (ignored : String → Bool) (keys : List String) : List String :=
  let kept := keys.filter (fun k => !ignored k)
  kept.filter (fun k => decide ((k ++ ".liquid") ∉ kept))

/-- Modelled from the spec: `GetAllAssets` performs
`GET .../assets.json?fields=key`, resolves the asset list with the
theme-not-found fallback, and returns the filtered keys. -/
def getAllAssets (c : Client) (t : Transport) : List Request × Except String (List String) :=
  let req : Request := ⟨"GET", assetPath c.themeID none ++ "?fields=key", none⟩
  match t 0 with
  | .error e => ([req], .error e)
  | .ok (status, body) =>
    match resolveResponse decodeAssetList [] (some ErrThemeNotFound) status body with
    | .error e => ([req], .error e)
    | .ok assets => ([req], .ok (filterAssets c.ignored (assets.map Asset.key)))

/-- Modelled from the spec: `GetAsset` performs a GET with the key in the
query and resolves the asset with the not-part-of-theme fallback. -/
def getAsset (c : Client) (key : String) (t : Transport) :
    List Request × Except String Asset :=
  let req : Request := ⟨"GET", assetPath c.themeID (some key), none⟩
  match t 0 with
  | .error e => ([req], .error e)
  | .ok (status, body) =>
    ([req], resolveResponse decodeAsset zeroAsset (some ErrNotPartOfTheme) status body)

/-- Modelled from the spec: `DeleteAsset` performs a DELETE with the key in
the query and resolves with the not-part-of-theme fallback. -/
def deleteAsset (c : Client) (a : Asset) (t : Transport) :
    List Request × Except String Unit :=
  let req : Request := ⟨"DELETE", assetPath c.themeID (some a.key), none⟩
  match t 0 with
  | .error e => ([req], .error e)
  | .ok (status, body) =>
    ([req],
     (resolveResponse decodeAsset zeroAsset (some ErrNotPartOfTheme) status body).map
       (fun _ => ()))

/-- The conflict signature mentioned by the retrier (as in the tests). -/
def conflictMarker : String := "Cannot overwrite generated asset"

/-- The PUT request issued by `updateAsset` for an asset. -/
def putRequest (c : Client) (a : Asset) : Request :=
  ⟨"PUT", assetPath c.themeID none,
   some (Json.obj [("asset", Json.obj [("key", .str a.key)])])⟩

/-- The DELETE request the conflict retrier issues for the `.liquid`
counterpart of an asset. -/
def liquidDeleteRequest (c : Client) (a : Asset) : Request :=
  ⟨"DELETE", assetPath c.themeID (some (a.key ++ ".liquid")), none⟩

/-- Modelled from the spec (ConflictRetrier, section 4.4): `UpdateAsset`
performs a PUT; when the response is a 422 whose resolved error message
indicates the generated-asset conflict, it deletes the asset at
`key ++ ".liquid"` and retries the PUT exactly once, surfacing a delete or
retry failure; otherwise the resolved result is final. -/
def updateAsset (c : Client) (a : Asset) (t : Transport) :
    List Request × Except String Unit :=
  let putReq := putRequest c a
  match t 0 with
  | .error e => ([putReq], .error e)
  | .ok (status, body) =>
    match resolveResponse decodeAsset zeroAsset (some ErrNotPartOfTheme) status body with
    | .ok _ => ([putReq], .ok ())
    | .error e =>
      if status = 422 ∧ strContains e conflictMarker = true then
        let delReq := liquidDeleteRequest c a
        match t 1 with
        | .error de => ([putReq, delReq], .error de)
        | .ok (ds, db) =>
          match resolveResponse decodeAsset zeroAsset (some ErrNotPartOfTheme) ds db with
          | .error de => ([putReq, delReq], .error de)
          | .ok _ =>
            match t 2 with
            | .error e2 => ([putReq, delReq, putReq], .error e2)
            | .ok (s2, b2) =>
              ([putReq, delReq, putReq],
               (resolveResponse decodeAsset zeroAsset (some ErrNotPartOfTheme) s2 b2).map
                 (fun _ => ()))
      else ([putReq], .error e)

/-- Events observable in the readiness-polling loop of `newTheme`
(`src/cmd/new.go`): a GetInfo call with its result, an error report, a log
line, and a sleep of a number of milliseconds. -/
inductive PollEv where
  | check (r : Except String Theme)
  | errMsg (s : String)
  | logMsg (s : String)
  | sleepMs (ms : Nat)

/-- The message `newTheme` reports when GetInfo fails during polling
(`src/cmd/new.go` line 78). -/
def downloadHelpMsg : String :=
  "Encountered an error while checking new theme. Please run `theme download` to complete the setup."

/-- Readiness-polling loop of `newTheme` (`src/cmd/new.go` lines 76 to 86),
translated with an explicit poll index and a fuel bound for observation:
`info` gives the result of the k-th GetInfo call; the loop exits with the
error when GetInfo errors (after reporting `downloadHelpMsg`), exits
successfully when the theme is previewable, and otherwise logs, sleeps
500 ms and re-checks.  Outcome `none` means the loop was still running when
the fuel ran out (the source loop itself is unbounded). -/
def runPoll (info : Nat → Except String Theme) : Nat → Nat → List PollEv × Option (Except String Unit)
  | _, 0 => ([], none)
  | n, fuel + 1 =>
    match info n with
    | .error e => ([.check (.error e), .errMsg downloadHelpMsg], some (.error e))
    | .ok t =>
      if t.previewable then
        ([.check (.ok t), .logMsg "downloading..."], some (.ok ()))
      else
        let rest := runPoll info (n + 1) fuel
        (.check (.ok t) :: .logMsg "processing..." :: .sleepMs 500 :: rest.1, rest.2)

/-- A GetInfo result that keeps the loop polling: success with
`previewable = false`. -/
def contOk (info : Nat → Except String Theme) (k : Nat) : Prop :=
  ∃ t, info k = .ok t ∧ t.previewable = false

/-- Whether a poll event is a sleep. -/
def isSleepEv : PollEv → Bool
  | .sleepMs _ => true
  | _ => false

/-- Per-file effect inputs for the static unbundler (`writeFile` in the
static package): whether the destination path already exists, and the errors
(if any) of `os.Create` and `io.Copy` for this file. -/
structure FileIO where
  pathExists : Bool
  createErr : Option String
  copyErr : Option String
  openErr : Option String
  dirErr : Option String

/-- What `writeFile` did to the destination file. -/
structure WriteEffect where
  created : Bool
  wroteAll : Bool
deriving DecidableEq

/-- Translated from `writeFile` (static package, lines 73 to 91): when the
path already exists it logs and returns nil without writing; when `os.Create`
fails that error is returned; otherwise `io.Copy` runs and its error is only
used to suppress the log line — the function returns nil regardless. -/
def writeFile (io : FileIO) : Option String × WriteEffect :=
  if io.pathExists then (none, ⟨false, false⟩)
  else
    match io.createErr with
    | some e => (some e, ⟨false, false⟩)
    | none => (none, ⟨true, io.copyErr.isNone⟩)

/-- Translated from `Unbundle` (static package, lines 24 to 54): for each
zip entry in order, prepare the directory, open the entry and write the
file, propagating the first error; `none` means success. -/
def unbundle : List FileIO → Option String
  | [] => none
  | io :: rest =>
    match io.dirErr with
    | some e => some e
    | none =>
      match io.openErr with
      | some e => some e
      | none =>
        match (writeFile io).1 with
        | some e => some e
        | none => unbundle rest

/-- A freeform errors field only arises from a JSON object body. -/
lemma isObj_of_errorsField_freeform {body : Json} {msg : String}
    (h : errorsField body = .freeform msg) : body.isObj = true := by
  cases body <;> simp [errorsField, Json.lookupField, Json.isObj] at h ⊢

/-- C5: toSentence returns the empty string for the empty list, the single
element for a one-element list, `"A and B"` for two elements, and for three
or more elements the comma-separated elements with `", and "` before the
last (Oxford comma). -/
theorem toSentence_spec :
    toSentence [] = ""
    ∧ (∀ a : String, toSentence [a] = a)
    ∧ (∀ a b : String, toSentence [a, b] = a ++ " and " ++ b)
    ∧ (∀ (xs : List String) (x : String), 2 ≤ xs.length →
        toSentence (xs ++ [x]) = String.intercalate ", " xs ++ ", and " ++ x) := by
  refine ⟨rfl, fun a => rfl, fun a b => rfl, ?_⟩
  intro xs x hlen
  match xs with
  | a :: b :: rest =>
    show toSentence (a :: b :: (rest ++ [x])) = _
    match rest with
    | [] => simp [toSentence]
    | c :: rs =>
      show toSentence (a :: b :: c :: (rs ++ [x])) = _
      simp only [toSentence]
      rw [show a :: b :: c :: (rs ++ [x]) = (a :: b :: c :: rs) ++ [x] by simp,
        List.dropLast_concat, List.getLastD_concat]

/-- Witness for C5 at a concrete three-element list. -/
theorem toSentence_spec_witness :
    2 ≤ (["A", "B"] : List String).length
    ∧ toSentence (["A", "B"] ++ ["C"]) = String.intercalate ", " ["A", "B"] ++ ", and " ++ "C" :=
  ⟨by decide, toSentence_spec.2.2.2 ["A", "B"] "C" (by decide)⟩

/-- C7: GetInfo with an empty bound themeID returns the precondition error
`"info requires a theme id"`, and CreateNewTheme with an empty source URL
returns `"theme zip path is required"`, in both cases with an empty request
trace, i.e. without any transport call. -/
theorem precondition_error_spec :
    (∀ (ign : String → Bool) (t : Transport),
        getInfo ⟨"", ign⟩ t = ([], .error ErrInfoWithoutThemeID))
    ∧ (∀ (name : String) (t : Transport),
        createNewTheme name "" t = ([], .error ErrZipPathRequired)) :=
  ⟨fun _ _ => rfl, fun _ _ => rfl⟩

/-- C10: once creating the destination file succeeds, writeFile returns nil
even when the copy fails (so the content may be only partially written), when
the destination already exists writeFile returns nil without writing, and
Unbundle reports success whenever directories, entry opening and file
creation succeed, regardless of copy failures. -/
theorem writeFile_spec :
    (∀ io : FileIO, io.pathExists = false → io.createErr = none →
        (writeFile io).1 = none ∧ (writeFile io).2.wroteAll = io.copyErr.isNone)
    ∧ (∀ io : FileIO, io.pathExists = true → writeFile io = (none, ⟨false, false⟩))
    ∧ (∀ files : List FileIO,
        (∀ io ∈ files,
          io.dirErr = none ∧ io.openErr = none ∧ (io.pathExists = true ∨ io.createErr = none)) →
        unbundle files = none) := by
  refine ⟨?_, ?_, ?_⟩
  · intro io h1 h2
    simp [writeFile, h1, h2]
  · intro io h1
    simp [writeFile, h1]
  · intro files h
    induction files with
    | nil => rfl
    | cons io rest ih =>
      obtain ⟨hdir, hopen, hwrite⟩ := h io (List.mem_cons_self io rest)
      have hrest := ih (fun x hx => h x (List.mem_cons_of_mem io hx))
      rcases hwrite with hex | hcr
      · simp [unbundle, hdir, hopen, writeFile, hex, hrest]
      · cases hpe : io.pathExists <;>
          simp [unbundle, hdir, hopen, writeFile, hpe, hcr, hrest]

/-- Witness for C10: a fresh file whose copy fails is reported as success but
not fully written, and Unbundle still succeeds over it. -/
theorem writeFile_spec_witness :
    ((writeFile ⟨false, none, some "disk full", none, none⟩).1 = none
      ∧ (writeFile ⟨false, none, some "disk full", none, none⟩).2.wroteAll
          = (Option.isNone (some "disk full")))
    ∧ writeFile ⟨true, none, some "disk full", none, none⟩ = (none, ⟨false, false⟩)
    ∧ unbundle [⟨false, none, some "disk full", none, none⟩] = none :=
  ⟨writeFile_spec.1 ⟨false, none, some "disk full", none, none⟩ rfl rfl,
   writeFile_spec.2.1 ⟨true, none, some "disk full", none, none⟩ rfl,
   writeFile_spec.2.2 [⟨false, none, some "disk full", none, none⟩]
     (by intro io hio; simp at hio; subst hio; exact ⟨rfl, rfl, Or.inr rfl⟩)⟩

/-- C1: when the HTTP response has status 404 and its body is an object
decoding to an entirely zero-valued success payload with no errors field,
GetShop returns the shop-not-found error, GetInfo and GetAllAssets the
theme-not-found error, and GetAsset, UpdateAsset and DeleteAsset the
asset-not-part-of-theme error. -/
theorem implied_not_found_spec (c : Client) (t : Transport) (body : Json)
    (key : String) (a : Asset)
    (hobj : body.isObj = true) (herr : errorsField body = .absent)
    (hresp : t 0 = .ok (404, body)) :
    (decodeShop body = some zeroShop → (getShop t).2 = .error ErrShopDomainNotFound)
    ∧ (c.themeID ≠ "" → decodeTheme body = some zeroTheme →
        (getInfo c t).2 = .error ErrThemeNotFound)
    ∧ (decodeAssetList body = some [] → (getAllAssets c t).2 = .error ErrThemeNotFound)
    ∧ (decodeAsset body = some zeroAsset →
        (getAsset c key t).2 = .error ErrNotPartOfTheme
        ∧ (updateAsset c a t).2 = .error ErrNotPartOfTheme
        ∧ (deleteAsset c a t).2 = .error ErrNotPartOfTheme) := by
  refine ⟨?_, ?_, ?_, ?_⟩
  · intro hdec
    simp [getShop, hresp, resolveResponse, hobj, herr, hdec]
  · intro hid hdec
    simp [getInfo, hid, hresp, resolveResponse, hobj, herr, hdec]
  · intro hdec
    simp [getAllAssets, hresp, resolveResponse, hobj, herr, hdec]
  · intro hdec
    refine ⟨?_, ?_, ?_⟩
    · simp [getAsset, hresp, resolveResponse, hobj, herr, hdec]
    · simp [updateAsset, hresp, resolveResponse, hobj, herr, hdec]
    · simp [deleteAsset, hresp, resolveResponse, hobj, herr, hdec, Except.map]

/-- Witness for C1 at the body `Json.obj []` (the empty JSON object) with a
bound themeID. -/
theorem implied_not_found_spec_witness :
    (getShop (fun _ => .ok (404, Json.obj []))).2 = .error ErrShopDomainNotFound
    ∧ (getInfo ⟨"123", fun _ => false⟩ (fun _ => .ok (404, Json.obj []))).2
        = .error ErrThemeNotFound
    ∧ (getAllAssets ⟨"123", fun _ => false⟩ (fun _ => .ok (404, Json.obj []))).2
        = .error ErrThemeNotFound
    ∧ (getAsset ⟨"123", fun _ => false⟩ "filename.txt" (fun _ => .ok (404, Json.obj []))).2
        = .error ErrNotPartOfTheme
    ∧ (updateAsset ⟨"123", fun _ => false⟩ ⟨"filename.txt"⟩ (fun _ => .ok (404, Json.obj []))).2
        = .error ErrNotPartOfTheme
    ∧ (deleteAsset ⟨"123", fun _ => false⟩ ⟨"filename.txt"⟩ (fun _ => .ok (404, Json.obj []))).2
        = .error ErrNotPartOfTheme := by
  have h := implied_not_found_spec ⟨"123", fun _ => false⟩ (fun _ => .ok (404, Json.obj []))
    (Json.obj []) "filename.txt" ⟨"filename.txt"⟩ rfl rfl rfl
  have h4 := h.2.2.2 rfl
  exact ⟨h.1 rfl, h.2.1 (by simp) rfl, h.2.2.1 rfl, h4.1, h4.2.1, h4.2.2⟩

/-- Counterexample to C2 as stated: a 422 response whose envelope carries the
freeform error string `"Cannot overwrite generated asset filename.txt"` does
not make UpdateAsset return that string — the conflict retrier intercepts it,
and with a successful delete and retried put the call returns success. -/
theorem freeform_error_counterexample :
    errorsField (Json.obj [("errors", Json.str "Cannot overwrite generated asset filename.txt")])
      = .freeform "Cannot overwrite generated asset filename.txt"
    ∧ (updateAsset ⟨"123", fun _ => false⟩ ⟨"filename.txt"⟩ (fun n =>
        if n = 0 then
          .ok (422, Json.obj [("errors", Json.str "Cannot overwrite generated asset filename.txt")])
        else if n = 1 then .ok (200, Json.obj [])
        else .ok (200, Json.obj [("asset", Json.obj [("key", Json.str "assets/hello.txt")])]))).2
      = .ok () :=
  ⟨rfl, rfl⟩

/-- C2 as amended: a freeform error string in the envelope is returned
verbatim by every client operation regardless of the status code and the
rest of the envelope, except that UpdateAsset, when the status is 422 and the
string carries the generated-asset conflict marker, runs the single-retry
protocol instead of returning the string. -/
theorem freeform_error_spec (c : Client) (t : Transport) (status : Nat)
    (body : Json) (msg : String)
    (hff : errorsField body = .freeform msg) (hresp : t 0 = .ok (status, body)) :
    (getShop t).2 = .error msg
    ∧ (themes t).2 = .error msg
    ∧ (∀ name source, source ≠ "" → (createNewTheme name source t).2 = .error msg)
    ∧ (c.themeID ≠ "" → (getInfo c t).2 = .error msg)
    ∧ (getAllAssets c t).2 = .error msg
    ∧ (∀ key, (getAsset c key t).2 = .error msg)
    ∧ (∀ a, (deleteAsset c a t).2 = .error msg)
    ∧ (∀ a, ¬(status = 422 ∧ strContains msg conflictMarker = true) →
        (updateAsset c a t).2 = .error msg) := by
  have hobj := isObj_of_errorsField_freeform hff
  refine ⟨?_, ?_, ?_, ?_, ?_, ?_, ?_, ?_⟩
  · simp [getShop, hresp, resolveResponse, hobj, hff]
  · simp [themes, hresp, resolveResponse, hobj, hff]
  · intro name source hsrc
    simp [createNewTheme, hsrc, hresp, resolveResponse, hobj, hff]
  · intro hid
    simp [getInfo, hid, hresp, resolveResponse, hobj, hff]
  · simp [getAllAssets, hresp, resolveResponse, hobj, hff]
  · intro key
    simp [getAsset, hresp, resolveResponse, hobj, hff]
  · intro a
    simp [deleteAsset, hresp, resolveResponse, hobj, hff, Except.map]
  · intro a hnot
    simp [updateAsset, hresp, resolveResponse, hobj, hff, if_neg hnot]

/-- Witness for the amended C2: a freeform `"Not Found"` error at status 200
is surfaced verbatim by GetShop and UpdateAsset. -/
theorem freeform_error_spec_witness :
    (getShop (fun _ => .ok (200, Json.obj [("errors", Json.str "Not Found")]))).2
      = .error "Not Found"
    ∧ (updateAsset ⟨"123", fun _ => false⟩ ⟨"filename.txt"⟩
        (fun _ => .ok (200, Json.obj [("errors", Json.str "Not Found")]))).2
      = .error "Not Found" := by
  have h := freeform_error_spec ⟨"123", fun _ => false⟩
    (fun _ => .ok (200, Json.obj [("errors", Json.str "Not Found")])) 200
    (Json.obj [("errors", Json.str "Not Found")]) "Not Found" rfl rfl
  exact ⟨h.1, h.2.2.2.2.2.2.2 ⟨"filename.txt"⟩ (by intro hc; exact absurd hc.1 (by decide))⟩

/-- Counterexample to C8 as stated: a GetShop success body is decoded at the
top level of the response, not under a `"shop"` key — a body with only a
top-level `"id"` decodes successfully without any `"shop"` key, and a body
carrying the payload under `"shop"` decodes to the zero-valued Shop,
ignoring that key. -/
theorem getShop_envelope_counterexample :
    (getShop (fun _ => .ok (200, Json.obj [("id", Json.num 123456)]))).2
      = .ok ⟨123456, ""⟩
    ∧ (getShop (fun _ => .ok (200, Json.obj [("shop", Json.obj [("id", Json.num 123456)])]))).2
      = .ok zeroShop :=
  ⟨rfl, rfl⟩

/-- C8 as amended: the GetShop success payload is decoded from the top level
of the response body itself (no `"shop"` wrapper key is used or required),
while the other operations read their payloads under wrapper keys such as
`"theme"`. -/
theorem getShop_toplevel_decode_spec (c : Client) (t : Transport) (body body2 tj : Json)
    (n : Int) (domain : String) (th : Theme)
    (hid : body.lookupField "id" = some (Json.num n))
    (hdom : body.lookupField "domain" = some (Json.str domain))
    (herr : body.lookupField "errors" = none)
    (hobj : body.isObj = true)
    (hresp : t 0 = .ok (200, body)) :
    (getShop t).2 = .ok ⟨n, domain⟩
    ∧ (c.themeID ≠ "" → t 0 = .ok (200, body2) → body2.isObj = true →
        errorsField body2 = .absent → body2.lookupField "theme" = some tj →
        decodeThemeObj tj = some th → th ≠ zeroTheme →
        (getInfo c t).2 = .ok th) := by
  constructor
  · have habs : errorsField body = .absent := by simp [errorsField, herr]
    have hdec : decodeShop body = some ⟨n, domain⟩ := by
      simp [decodeShop, decodeNumField, decodeStrField, hid, hdom]
    have hz : (⟨n, domain⟩ : Shop) = zeroShop ∧ (200 : Nat) = 404 → False := by
      intro hc; exact absurd hc.2 (by decide)
    simp [getShop, hresp, resolveResponse, hobj, habs, hdec, hz]
  · intro hidne hresp2 hobj2 habs2 hthm hdec hnz
    have hdec2 : decodeTheme body2 = some th := by simp [decodeTheme, hthm, hdec]
    have hz : th = zeroTheme ∧ (200 : Nat) = 404 → False := by
      intro hc; exact absurd hc.2 (by decide)
    simp [getInfo, hidne, hresp2, resolveResponse, hobj2, habs2, hdec2, hz]

/-- Witness for the amended C8 at the test scenario body with id 123456. -/
theorem getShop_toplevel_decode_spec_witness :
    (getShop (fun _ => .ok (200, Json.obj [("id", Json.num 123456), ("domain", Json.str "shop.myshopify.com")]))).2
      = .ok ⟨123456, "shop.myshopify.com"⟩ :=
  (getShop_toplevel_decode_spec ⟨"123", fun _ => false⟩
    (fun _ => .ok (200, Json.obj [("id", Json.num 123456), ("domain", Json.str "shop.myshopify.com")]))
    (Json.obj [("id", Json.num 123456), ("domain", Json.str "shop.myshopify.com")])
    (Json.obj []) Json.null 123456 "shop.myshopify.com" zeroTheme
    rfl rfl rfl rfl rfl).1

/-- C3: when the first Put resolves to a 422 generated-asset conflict and the
delete of the `.liquid` counterpart succeeds, UpdateAsset issues exactly the
three requests Put, Delete of `key ++ ".liquid"`, retried Put (so exactly one
delete and one retry), and succeeds exactly when the retried Put resolves
successfully. -/
theorem updateAsset_conflict_spec (c : Client) (a : Asset) (t : Transport)
    (body db : Json) (e : String) (ds : Nat) (da : Asset)
    (h0 : t 0 = .ok (422, body))
    (hres : resolveResponse decodeAsset zeroAsset (some ErrNotPartOfTheme) 422 body = .error e)
    (hmark : strContains e conflictMarker = true)
    (h1 : t 1 = .ok (ds, db))
    (hdel : resolveResponse decodeAsset zeroAsset (some ErrNotPartOfTheme) ds db = .ok da) :
    (updateAsset c a t).1 = [putRequest c a, liquidDeleteRequest c a, putRequest c a]
    ∧ (∀ s2 b2, t 2 = .ok (s2, b2) →
        ((updateAsset c a t).2 = .ok () ↔
          ∃ x, resolveResponse decodeAsset zeroAsset (some ErrNotPartOfTheme) s2 b2
            = .ok x)) := by
  have hcond : (422 : Nat) = 422 ∧ strContains e conflictMarker = true := ⟨rfl, hmark⟩
  constructor
  · cases ht2 : t 2 with
    | error e2 => simp [updateAsset, h0, hres, hmark, h1, hdel, ht2]
    | ok p =>
      obtain ⟨s2, b2⟩ := p
      simp [updateAsset, h0, hres, hmark, h1, hdel, ht2]
  · intro s2 b2 ht2
    simp only [updateAsset, h0, hres, hmark, h1, hdel, ht2, if_pos hcond]
    cases hr : resolveResponse decodeAsset zeroAsset (some ErrNotPartOfTheme) s2 b2 with
    | error er => simp [Except.map, hr]
    | ok x => simp [Except.map, hr]

/-- Witness for C3 at the test scenario: a 422 field-validation conflict on
the first Put, a successful delete, and a successful retried Put. -/
theorem updateAsset_conflict_spec_witness :
    (updateAsset ⟨"123", fun _ => false⟩ ⟨"filename.txt"⟩ (fun n =>
        if n = 0 then
          .ok (422, Json.obj [("errors",
            Json.obj [("asset", Json.arr [Json.str "Cannot overwrite generated asset filename.txt"])])])
        else if n = 1 then .ok (200, Json.obj [])
        else .ok (200, Json.obj [("asset", Json.obj [("key", Json.str "assets/hello.txt")])]))).1
      = [putRequest ⟨"123", fun _ => false⟩ ⟨"filename.txt"⟩,
         liquidDeleteRequest ⟨"123", fun _ => false⟩ ⟨"filename.txt"⟩,
         putRequest ⟨"123", fun _ => false⟩ ⟨"filename.txt"⟩]
    ∧ ((updateAsset ⟨"123", fun _ => false⟩ ⟨"filename.txt"⟩ (fun n =>
        if n = 0 then
          .ok (422, Json.obj [("errors",
            Json.obj [("asset", Json.arr [Json.str "Cannot overwrite generated asset filename.txt"])])])
        else if n = 1 then .ok (200, Json.obj [])
        else .ok (200, Json.obj [("asset", Json.obj [("key", Json.str "assets/hello.txt")])]))).2
        = .ok ()
      ↔ ∃ x, resolveResponse decodeAsset zeroAsset (some ErrNotPartOfTheme) 200
          (Json.obj [("asset", Json.obj [("key", Json.str "assets/hello.txt")])]) = .ok x) := by
  have h := updateAsset_conflict_spec ⟨"123", fun _ => false⟩ ⟨"filename.txt"⟩
    (fun n =>
      if n = 0 then
        .ok (422, Json.obj [("errors",
          Json.obj [("asset", Json.arr [Json.str "Cannot overwrite generated asset filename.txt"])])])
      else if n = 1 then .ok (200, Json.obj [])
      else .ok (200, Json.obj [("asset", Json.obj [("key", Json.str "assets/hello.txt")])]))
    (Json.obj [("errors",
      Json.obj [("asset", Json.arr [Json.str "Cannot overwrite generated asset filename.txt"])])])
    (Json.obj []) "asset Cannot overwrite generated asset filename.txt" 200 zeroAsset
    rfl rfl rfl rfl rfl
  exact ⟨h.1, h.2 200 (Json.obj [("asset", Json.obj [("key", Json.str "assets/hello.txt")])]) rfl⟩

/-- Counterexample to C4 as stated: with `X := "templates/foo.json"`, a
listing that also contains `X.liquid.liquid` yields a filtered result that
does not contain `X.liquid` (the shadowing rule drops it too), and a listing
where `X.liquid` matches an ignore rule yields a filtered result that still
contains `X`. -/
theorem getAllAssets_shadow_counterexample :
    ((getAllAssets ⟨"123", fun _ => false⟩ (fun _ => .ok (200, Json.obj [("assets", Json.arr
        [Json.obj [("key", Json.str "templates/foo.json")],
         Json.obj [("key", Json.str "templates/foo.json.liquid")],
         Json.obj [("key", Json.str "templates/foo.json.liquid.liquid")]])]))).2
      = .ok ["templates/foo.json.liquid.liquid"]
     ∧ "templates/foo.json.liquid" ∉ (["templates/foo.json.liquid.liquid"] : List String))
    ∧ ((getAllAssets ⟨"123", fun k => k == "templates/foo.json.liquid"⟩
        (fun _ => .ok (200, Json.obj [("assets", Json.arr
          [Json.obj [("key", Json.str "templates/foo.json")],
           Json.obj [("key", Json.str "templates/foo.json.liquid")]])]))).2
      = .ok ["templates/foo.json"]
     ∧ "templates/foo.json" ∈ (["templates/foo.json"] : List String)) :=
  ⟨⟨rfl, by decide⟩, ⟨rfl, by decide⟩⟩

/-- C4 as amended: when the listing contains both `X` and `X.liquid`,
`X.liquid` does not match an ignore rule, and the listing does not also
contain `X.liquid.liquid`, the filtered result of GetAllAssets contains
`X.liquid` and not `X` — in whichever order the keys appear, since the
hypotheses only constrain membership. -/
theorem getAllAssets_shadow_spec (c : Client) (t : Transport) (body : Json)
    (assets : List Asset) (X : String)
    (hresp : t 0 = .ok (200, body)) (hobj : body.isObj = true)
    (herr : errorsField body = .absent) (hdec : decodeAssetList body = some assets)
    (_hX : X ∈ assets.map Asset.key) (hXl : (X ++ ".liquid") ∈ assets.map Asset.key)
    (hignl : c.ignored (X ++ ".liquid") = false)
    (hnoll : ((X ++ ".liquid") ++ ".liquid") ∉ assets.map Asset.key) :
    (getAllAssets c t).2 = .ok (filterAssets c.ignored (assets.map Asset.key))
    ∧ (X ++ ".liquid") ∈ filterAssets c.ignored (assets.map Asset.key)
    ∧ X ∉ filterAssets c.ignored (assets.map Asset.key) := by
  have hkeptl : (X ++ ".liquid")
      ∈ (assets.map Asset.key).filter (fun k => !c.ignored k) := by
    rw [List.mem_filter]
    exact ⟨hXl, by simp [hignl]⟩
  have hnokept : ((X ++ ".liquid") ++ ".liquid")
      ∉ (assets.map Asset.key).filter (fun k => !c.ignored k) := by
    intro hmem
    exact hnoll (List.mem_filter.1 hmem).1
  refine ⟨?_, ?_, ?_⟩
  · simp [getAllAssets, hresp, resolveResponse, hobj, herr, hdec]
  · simp only [filterAssets]
    rw [List.mem_filter]
    exact ⟨hkeptl, decide_eq_true hnokept⟩
  · intro hmem
    simp only [filterAssets] at hmem
    rw [List.mem_filter] at hmem
    exact of_decide_eq_true hmem.2 hkeptl

/-- Witness for the amended C4: the test scenario listing with both key
orders, no ignore rules. -/
theorem getAllAssets_shadow_spec_witness :
    ((getAllAssets ⟨"123", fun _ => false⟩ (fun _ => .ok (200, Json.obj [("assets", Json.arr
        [Json.obj [("key", Json.str "templates/foo.json")],
         Json.obj [("key", Json.str "templates/foo.json.liquid")]])]))).2
      = .ok (filterAssets (fun _ => false)
          ["templates/foo.json", "templates/foo.json.liquid"]))
    ∧ ("templates/foo.json" ++ ".liquid")
        ∈ filterAssets (fun _ => false) ["templates/foo.json", "templates/foo.json.liquid"]
    ∧ "templates/foo.json"
        ∉ filterAssets (fun _ => false) ["templates/foo.json", "templates/foo.json.liquid"] := by
  have h := getAllAssets_shadow_spec ⟨"123", fun _ => false⟩
    (fun _ => .ok (200, Json.obj [("assets", Json.arr
      [Json.obj [("key", Json.str "templates/foo.json")],
       Json.obj [("key", Json.str "templates/foo.json.liquid")]])]))
    (Json.obj [("assets", Json.arr
      [Json.obj [("key", Json.str "templates/foo.json")],
       Json.obj [("key", Json.str "templates/foo.json.liquid")]])])
    [⟨"templates/foo.json"⟩, ⟨"templates/foo.json.liquid"⟩] "templates/foo.json"
    rfl rfl rfl rfl (by decide) (by decide) rfl (by decide)
  exact h

/-- Sorting by field name is insensitive to the input order whenever the
field names are distinct (as they are in a map). -/
lemma insertionSort_keyLE_eq_of_perm (l1 l2 : List (String × List String))
    (hperm : l1.Perm l2) (hnd : (l1.map Prod.fst).Nodup) :
    List.insertionSort keyLE l1 = List.insertionSort keyLE l2 := by
  haveI : IsAntisymm (String × List String) (fun a b => a.1 < b.1) :=
    ⟨fun _ _ h1 h2 => absurd h2 (lt_asymm h1)⟩
  have hp : (List.insertionSort keyLE l1).Perm (List.insertionSort keyLE l2) :=
    (List.perm_insertionSort keyLE l1).trans
      (hperm.trans (List.perm_insertionSort keyLE l2).symm)
  have hnd1 : ((List.insertionSort keyLE l1).map Prod.fst).Nodup :=
    (((List.perm_insertionSort keyLE l1).map Prod.fst).nodup_iff).mpr hnd
  have hnd2 : ((List.insertionSort keyLE l2).map Prod.fst).Nodup :=
    (((List.perm_insertionSort keyLE l2).map Prod.fst).nodup_iff).mpr
      ((hperm.map Prod.fst).nodup_iff.mp hnd)
  have hne1 : (List.insertionSort keyLE l1).Pairwise (fun a b => a.1 ≠ b.1) :=
    List.pairwise_map.mp hnd1
  have hne2 : (List.insertionSort keyLE l2).Pairwise (fun a b => a.1 ≠ b.1) :=
    List.pairwise_map.mp hnd2
  have hlt1 : (List.insertionSort keyLE l1).Pairwise (fun a b => a.1 < b.1) :=
    ((List.sorted_insertionSort keyLE l1).and hne1).imp
      (fun h => lt_of_le_of_ne h.1 h.2)
  have hlt2 : (List.insertionSort keyLE l2).Pairwise (fun a b => a.1 < b.1) :=
    ((List.sorted_insertionSort keyLE l2).and hne2).imp
      (fun h => lt_of_le_of_ne h.1 h.2)
  exact List.eq_of_perm_of_sorted hp hlt1 hlt2

/-- C9: toMessages emits one `"<field> <violation>"` message per violation of
the validation-error map, iterating fields in the deterministic sorted order:
any two maps with the same entries yield the identical message list, every
message comes from one entry and one violation, and there are exactly as many
messages as violations. -/
theorem toMessages_spec (l1 l2 : List (String × List String))
    (hnd : (l1.map Prod.fst).Nodup) (hperm : l1.Perm l2) :
    toMessages l1 = toMessages l2
    ∧ (∀ msg ∈ toMessages l1, ∃ k vs v, (k, vs) ∈ l1 ∧ v ∈ vs ∧ msg = k ++ " " ++ v)
    ∧ (toMessages l1).length = (l1.map (fun p => p.2.length)).sum := by
  refine ⟨?_, ?_, ?_⟩
  · unfold toMessages
    rw [insertionSort_keyLE_eq_of_perm l1 l2 hperm hnd]
  · intro msg hmsg
    unfold toMessages at hmsg
    rw [List.mem_flatMap] at hmsg
    obtain ⟨p, hp, hm⟩ := hmsg
    rw [List.mem_map] at hm
    obtain ⟨v, hv, rfl⟩ := hm
    exact ⟨p.1, p.2, v, by simpa using (List.mem_insertionSort keyLE).mp hp, hv, rfl⟩
  · have hsum := ((List.perm_insertionSort keyLE l1).map
      (fun p : String × List String => p.2.length)).sum_eq
    calc (toMessages l1).length
        = ((List.insertionSort keyLE l1).map (fun p => p.2.length)).sum := by
          simp [toMessages, List.flatMap_def, List.length_flatten, List.map_map,
            Function.comp_def]
      _ = (l1.map (fun p => p.2.length)).sum := hsum

/-- Witness for C9: two orderings of the same two-field map yield the same
messages, of the expected shape and count. -/
theorem toMessages_spec_witness :
    toMessages [("src", ["is empty"]), ("name", ["can't be blank"])]
      = toMessages [("name", ["can't be blank"]), ("src", ["is empty"])]
    ∧ (∀ msg ∈ toMessages [("src", ["is empty"]), ("name", ["can't be blank"])],
        ∃ k vs v, (k, vs) ∈ [("src", ["is empty"]), ("name", ["can't be blank"])]
          ∧ v ∈ vs ∧ msg = k ++ " " ++ v)
    ∧ (toMessages [("src", ["is empty"]), ("name", ["can't be blank"])]).length
        = ([("src", ["is empty"]), ("name", ["can't be blank"])].map
            (fun p => p.2.length)).sum :=
  toMessages_spec [("src", ["is empty"]), ("name", ["can't be blank"])]
    [("name", ["can't be blank"]), ("src", ["is empty"])]
    (by decide) (List.Perm.swap _ _ _)

/-- The poll loop exits with an error exactly when some GetInfo call errors
after a run of non-previewable successes. -/
lemma runPoll_out_error_iff (info : Nat → Except String Theme) (e : String) :
    ∀ fuel n, (runPoll info n fuel).2 = some (.error e) ↔
      ∃ m, m < fuel ∧ info (n + m) = .error e ∧ ∀ k < m, contOk info (n + k)
  | 0, n => by simp [runPoll]
  | fuel + 1, n => by
    cases hinfo : info n with
    | error e' =>
      simp only [runPoll, hinfo]
      constructor
      · intro h
        have he : e' = e := by simpa using h
        exact ⟨0, Nat.succ_pos fuel, by simpa [he] using hinfo,
          fun k hk => absurd hk (Nat.not_lt_zero k)⟩
      · rintro ⟨m, _, hm, hcont⟩
        cases m with
        | zero =>
          simp only [Nat.add_zero] at hm
          rw [hinfo] at hm
          simpa using hm
        | succ m' =>
          obtain ⟨t, ht, _⟩ := hcont 0 (Nat.succ_pos m')
          simp only [Nat.add_zero] at ht
          rw [hinfo] at ht
          cases ht
    | ok t =>
      cases hp : t.previewable with
      | true =>
        simp only [runPoll, hinfo, hp, if_true]
        constructor
        · intro h
          exact absurd h (by simp)
        · rintro ⟨m, _, hm, hcont⟩
          cases m with
          | zero =>
            simp only [Nat.add_zero] at hm
            rw [hinfo] at hm
            cases hm
          | succ m' =>
            obtain ⟨t', ht', hp'⟩ := hcont 0 (Nat.succ_pos m')
            simp only [Nat.add_zero] at ht'
            rw [hinfo] at ht'
            obtain rfl : t = t' := by simpa using ht'
            rw [hp] at hp'
            exact absurd hp' (by simp)
      | false =>
        simp only [runPoll, hinfo, hp, Bool.false_eq_true, if_false]
        rw [runPoll_out_error_iff info e fuel (n + 1)]
        constructor
        · rintro ⟨m, hmf, hm, hcont⟩
          refine ⟨m + 1, by omega, ?_, ?_⟩
          · have harr : n + (m + 1) = n + 1 + m := by omega
            rw [harr]; exact hm
          · intro k hk
            cases k with
            | zero => exact ⟨t, hinfo, hp⟩
            | succ k' =>
              have harr : n + (k' + 1) = n + 1 + k' := by omega
              rw [harr]; exact hcont k' (by omega)
        · rintro ⟨m, hmf, hm, hcont⟩
          cases m with
          | zero =>
            simp only [Nat.add_zero] at hm
            rw [hinfo] at hm
            cases hm
          | succ m' =>
            refine ⟨m', by omega, ?_, ?_⟩
            · have harr : n + 1 + m' = n + (m' + 1) := by omega
              rw [harr]; exact hm
            · intro k hk
              have harr : n + 1 + k = n + (k + 1) := by omega
              rw [harr]; exact hcont (k + 1) (by omega)

/-- The poll loop exits successfully exactly when some GetInfo call returns a
previewable theme after a run of non-previewable successes. -/
lemma runPoll_out_ok_iff (info : Nat → Except String Theme) :
    ∀ fuel n, (runPoll info n fuel).2 = some (.ok ()) ↔
      ∃ m, m < fuel ∧ (∃ t, info (n + m) = .ok t ∧ t.previewable = true)
        ∧ ∀ k < m, contOk info (n + k)
  | 0, n => by simp [runPoll]
  | fuel + 1, n => by
    cases hinfo : info n with
    | error e' =>
      simp only [runPoll, hinfo]
      constructor
      · intro h
        exact absurd h (by simp)
      · rintro ⟨m, _, ⟨t, hm, _⟩, hcont⟩
        cases m with
        | zero =>
          simp only [Nat.add_zero] at hm
          rw [hinfo] at hm
          cases hm
        | succ m' =>
          obtain ⟨t', ht', _⟩ := hcont 0 (Nat.succ_pos m')
          simp only [Nat.add_zero] at ht'
          rw [hinfo] at ht'
          cases ht'
    | ok t =>
      cases hp : t.previewable with
      | true =>
        simp only [runPoll, hinfo, hp, if_true]
        constructor
        · intro _
          exact ⟨0, Nat.succ_pos fuel, ⟨t, by simpa using hinfo, hp⟩,
            fun k hk => absurd hk (Nat.not_lt_zero k)⟩
        · intro _
          trivial
      | false =>
        simp only [runPoll, hinfo, hp, Bool.false_eq_true, if_false]
        rw [runPoll_out_ok_iff info fuel (n + 1)]
        constructor
        · rintro ⟨m, hmf, ⟨u, hm, hup⟩, hcont⟩
          refine ⟨m + 1, by omega, ⟨u, ?_, hup⟩, ?_⟩
          · have harr : n + (m + 1) = n + 1 + m := by omega
            rw [harr]; exact hm
          · intro k hk
            cases k with
            | zero => exact ⟨t, hinfo, hp⟩
            | succ k' =>
              have harr : n + (k' + 1) = n + 1 + k' := by omega
              rw [harr]; exact hcont k' (by omega)
        · rintro ⟨m, hmf, ⟨u, hm, hup⟩, hcont⟩
          cases m with
          | zero =>
            simp only [Nat.add_zero] at hm
            rw [hinfo] at hm
            obtain rfl : t = u := by simpa using hm
            rw [hp] at hup
            exact absurd hup (by simp)
          | succ m' =>
            refine ⟨m', by omega, ⟨u, ?_, hup⟩, ?_⟩
            · have harr : n + 1 + m' = n + (m' + 1) := by omega
              rw [harr]; exact hm
            · intro k hk
              have harr : n + 1 + k = n + (k + 1) := by omega
              rw [harr]; exact hcont (k + 1) (by omega)

/-- When the loop exits with an error at poll `m`, it has reported the help
message and slept exactly `m` times, 500 ms each. -/
lemma runPoll_trace_error (info : Nat → Except String Theme) (e : String) :
    ∀ m fuel n, (∀ k < m, contOk info (n + k)) → info (n + m) = .error e →
      m < fuel →
      (runPoll info n fuel).1.filter isSleepEv = List.replicate m (PollEv.sleepMs 500)
      ∧ PollEv.errMsg downloadHelpMsg ∈ (runPoll info n fuel).1
      ∧ (runPoll info n fuel).2 = some (.error e)
  | 0, 0, n => fun _ _ hm => absurd hm (by omega)
  | 0, fuel + 1, n => by
    intro _ he _
    simp only [Nat.add_zero] at he
    simp [runPoll, he, isSleepEv]
  | m + 1, 0, n => fun _ _ hm => absurd hm (by omega)
  | m + 1, fuel + 1, n => by
    intro hcont he _
    obtain ⟨t, ht, hp⟩ := hcont 0 (Nat.succ_pos m)
    simp only [Nat.add_zero] at ht
    have hrec := runPoll_trace_error info e m fuel (n + 1)
      (fun k hk => by
        have harr : n + 1 + k = n + (k + 1) := by omega
        rw [harr]; exact hcont (k + 1) (by omega))
      (by
        have harr : n + 1 + m = n + (m + 1) := by omega
        rw [harr]; exact he)
      (by omega)
    simp only [runPoll, ht, hp, if_false, List.filter, isSleepEv]
    refine ⟨?_, ?_, hrec.2.2⟩
    · simpa [List.replicate, isSleepEv] using hrec.1
    · simp [hrec.2.1]

/-- When the loop exits successfully at poll `m`, it has never reported an
error message and slept exactly `m` times, 500 ms each. -/
lemma runPoll_trace_ok (info : Nat → Except String Theme) :
    ∀ m fuel n, (∀ k < m, contOk info (n + k)) →
      (∃ t, info (n + m) = .ok t ∧ t.previewable = true) →
      m < fuel →
      (runPoll info n fuel).1.filter isSleepEv = List.replicate m (PollEv.sleepMs 500)
      ∧ (∀ s, PollEv.errMsg s ∉ (runPoll info n fuel).1)
      ∧ (runPoll info n fuel).2 = some (.ok ())
  | 0, 0, n => fun _ _ hm => absurd hm (by omega)
  | 0, fuel + 1, n => by
    rintro _ ⟨t, ht, hp⟩ _
    simp only [Nat.add_zero] at ht
    simp [runPoll, ht, hp, isSleepEv]
  | m + 1, 0, n => fun _ _ hm => absurd hm (by omega)
  | m + 1, fuel + 1, n => by
    intro hcont hex _
    obtain ⟨t, ht, hp⟩ := hcont 0 (Nat.succ_pos m)
    simp only [Nat.add_zero] at ht
    have hrec := runPoll_trace_ok info m fuel (n + 1)
      (fun k hk => by
        have harr : n + 1 + k = n + (k + 1) := by omega
        rw [harr]; exact hcont (k + 1) (by omega))
      (by
        obtain ⟨u, hu, hup⟩ := hex
        have harr : n + 1 + m = n + (m + 1) := by omega
        rw [harr]; exact ⟨u, hu, hup⟩)
      (by omega)
    simp only [runPoll, ht, hp, if_false, List.filter, isSleepEv]
    refine ⟨?_, ?_, hrec.2.2⟩
    · simpa [List.replicate, isSleepEv] using hrec.1
    · intro s
      simp [hrec.2.1 s]

/-- As long as every GetInfo call succeeds with a non-previewable theme, the
loop never exits, whatever the observation bound. -/
lemma runPoll_none_of_all_cont (info : Nat → Except String Theme)
    (hcont : ∀ k, contOk info k) :
    ∀ fuel n, (runPoll info n fuel).2 = none
  | 0, _ => rfl
  | fuel + 1, n => by
    obtain ⟨t, ht, hp⟩ := hcont n
    simp only [runPoll, ht, hp, Bool.false_eq_true, if_false]
    exact runPoll_none_of_all_cont info hcont fuel (n + 1)

/-- C6: the readiness-polling loop of `newTheme` exits with an error — after
reporting the message directing the caller to run the download step manually
— exactly when a GetInfo call errors, exits successfully exactly when GetInfo
returns a previewable theme, and otherwise waits a fixed 500 ms interval
before each re-check; with every GetInfo call non-previewable it never exits,
whatever the bound, i.e. there is no retry ceiling or timeout. -/
theorem newTheme_poll_spec (info : Nat → Except String Theme)
    (n m fuel : Nat) (e : String) :
    ((∀ k < m, contOk info (n + k)) → info (n + m) = .error e → m < fuel →
      (runPoll info n fuel).2 = some (.error e)
      ∧ PollEv.errMsg downloadHelpMsg ∈ (runPoll info n fuel).1
      ∧ (runPoll info n fuel).1.filter isSleepEv
          = List.replicate m (PollEv.sleepMs 500))
    ∧ ((∀ k < m, contOk info (n + k)) →
        (∃ t, info (n + m) = .ok t ∧ t.previewable = true) → m < fuel →
      (runPoll info n fuel).2 = some (.ok ())
      ∧ (∀ s, PollEv.errMsg s ∉ (runPoll info n fuel).1)
      ∧ (runPoll info n fuel).1.filter isSleepEv
          = List.replicate m (PollEv.sleepMs 500))
    ∧ ((runPoll info n fuel).2 = some (.error e) ↔
        ∃ m', m' < fuel ∧ info (n + m') = .error e ∧ ∀ k < m', contOk info (n + k))
    ∧ ((runPoll info n fuel).2 = some (.ok ()) ↔
        ∃ m', m' < fuel ∧ (∃ t, info (n + m') = .ok t ∧ t.previewable = true)
          ∧ ∀ k < m', contOk info (n + k))
    ∧ ((∀ k, contOk info k) → (runPoll info n fuel).2 = none) := by
  refine ⟨?_, ?_, runPoll_out_error_iff info e fuel n, runPoll_out_ok_iff info fuel n,
    fun h => runPoll_none_of_all_cont info h fuel n⟩
  · intro hcont he hm
    obtain ⟨h1, h2, h3⟩ := runPoll_trace_error info e m fuel n hcont he hm
    exact ⟨h3, h2, h1⟩
  · intro hcont hex hm
    obtain ⟨h1, h2, h3⟩ := runPoll_trace_ok info m fuel n hcont hex hm
    exact ⟨h3, h2, h1⟩

/-- Witness for C6: one non-previewable poll followed by an error exits with
that error after exactly one 500 ms sleep and reports the help message. -/
theorem newTheme_poll_spec_witness :
    (runPoll (fun k => if k = 0 then .ok zeroTheme else .error "boom") 0 3).2
      = some (.error "boom")
    ∧ PollEv.errMsg downloadHelpMsg
        ∈ (runPoll (fun k => if k = 0 then .ok zeroTheme else .error "boom") 0 3).1
    ∧ (runPoll (fun k => if k = 0 then .ok zeroTheme else .error "boom") 0 3).1.filter
        isSleepEv = List.replicate 1 (PollEv.sleepMs 500) :=
  (newTheme_poll_spec (fun k => if k = 0 then .ok zeroTheme else .error "boom")
    0 1 3 "boom").1
    (by
      intro k hk
      have hk0 : k = 0 := by omega
      subst hk0
      exact ⟨zeroTheme, rfl, rfl⟩)
    rfl (by omega)

end Themekit
